import Mathlib

/-!
Verification development for a command-line document-generation assistant
(single Python source file).  The program is embedded shallowly: strings are
lists of characters, the generative-text service is an oracle parameter
`gen : Str → Str`, and the pseudo-random source is an oracle stream
`g : Nat → Nat` (one draw per index; `randint a b` maps a draw into `[a, b]`
and `choice` maps a draw into an index of the list, so every draw lands in
the documented range, exactly as the Python library guarantees).
Filesystem effects are modelled as the list of (path, payload) writes a
handler performs, in order.
-/

/-- Strings of the embedded program: lists of characters. -/
abbrev Str := List Char

/-- ASCII whitespace recognised by Python str.strip / the regex class \s. -/
def isPySpace (c : Char) : Bool :=
  c = ' ' || c = '\t' || c = '\n' || c = '\r' || c = '\x0b' || c = '\x0c'

/-- Decimal digit test, the regex class \d restricted to ASCII. -/
def isDigitCh (c : Char) : Bool :=
  '0' ≤ c && c ≤ '9'

/-- Python str.strip(): remove leading and trailing whitespace. -/
def pyStrip (s : Str) : Str :=
  ((s.dropWhile isPySpace).reverse.dropWhile isPySpace).reverse

/-- Python str.lower() (ASCII letters; the program only routes on ASCII keywords). -/
def lower (s : Str) : Str :=
  s.map Char.toLower

/-- Index of the first occurrence of `pat` in `s`, if any
(the position where Python re / the `in` operator first finds it). -/
def findSub (pat : Str) : Str → Option Nat
  | [] => if pat.isEmpty then some 0 else none
  | c :: s =>
    if pat.isPrefixOf (c :: s) then some 0
    else (findSub pat s).map (fun i => i + 1)

/-- Python substring test `pat in s`. -/
def containsSub (pat s : Str) : Bool :=
  (findSub pat s).isSome

/-- Characters kept by the regex class [a-zA-Z0-9_-] of sanitize_filename. -/
def isValidFilenameChar (c : Char) : Bool :=
  ('a' ≤ c && c ≤ 'z') || ('A' ≤ c && c ≤ 'Z') || ('0' ≤ c && c ≤ '9') || c = '_' || c = '-'

/-- sanitize_filename: replace every character outside [a-zA-Z0-9_-] by an
underscore, then truncate to 50 characters (re.sub followed by [:50]). -/
def sanitize_filename (text : Str) : Str :=
  (text.map (fun c => if isValidFilenameChar c then c else '_')).take 50

/-- os.path.join(folder, name) for a plain relative name. -/
def pathJoin (folder name : Str) : Str :=
  folder ++ '/' :: name

/-- Python "\n"-split of a string (str.split with separator, so a trailing
newline yields a trailing empty line and the empty string yields [""]). -/
def splitLines : Str → List Str
  | [] => [[]]
  | c :: s =>
    if c = '\n' then [] :: splitLines s
    else
      match splitLines s with
      | [] => [[c]]
      | l :: ls => (c :: l) :: ls

/-- Value of the first maximal digit run, as read by int(). -/
def digitsToNat (ds : Str) : Nat :=
  ds.foldl (fun acc c => 10 * acc + (c.toNat - 48)) 0

/-- re.search for (\d+): the first integer literal occurring in the text. -/
def firstInt : Str → Option Nat
  | [] => none
  | c :: s =>
    if isDigitCh c then some (digitsToNat (c :: s.takeWhile isDigitCh))
    else firstInt s

/-- The delimiter opening an article block, "ARTICLE START" plus the newline
the regex requires right after it. -/
def startPat : Str := ("ARTICLE START\n").data

/-- The delimiter closing an article block, the newline required before
"ARTICLE END" included. -/
def endPat : Str := ("\nARTICLE END").data

/-- One lazy match of the article regex ARTICLE START\n(.*?)\n(.*?)\nARTICLE END
(DOTALL), applied to the text that follows "ARTICLE START\n": the first group
grows to the nearest newline, the second to the nearest "\nARTICLE END".
Returns (title, content, text after the consumed match). -/
def matchGroups (s : Str) : Option (Str × Str × Str) :=
  match findSub (['\n']) s with
  | none => none
  | some p =>
    let a := s.take p
    let rest := s.drop (p + 1)
    match findSub endPat rest with
    | none => none
    | some k => some (a, rest.take k, rest.drop (k + 12))

/-- re.findall of the article pattern: scan for "ARTICLE START\n", take the
lazy groups, continue after the consumed match.  If the groups cannot be
completed there, no later start can complete either (the remaining text holds
no "\nARTICLE END"), so the scan ends.  Fuel bounds the recursion; the callers
pass the text length, which suffices since every match consumes characters. -/
def findArticlesAux : Nat → Str → List (Str × Str)
  | 0, _ => []
  | fuel + 1, s =>
    match findSub startPat s with
    | none => []
    | some i =>
      match matchGroups (s.drop (i + 14)) with
      | none => []
      | some (t, c, r) => (t, c) :: findArticlesAux fuel r

/-- All article blocks parsed from a response text. -/
def findArticles (s : Str) : List (Str × Str) :=
  findArticlesAux s.length s

/-- The instruction save_articles sends to the generative client. -/
def article_instruction (prompt : Str) : Str :=
  ("Write multiple detailed articles based on this prompt:\n").data ++ prompt
    ++ ("\n").data
    ++ ("Format strictly as:\nARTICLE START\n<Title>\n<Content>\nARTICLE END").data

/-- safe_title of the i-th parsed article (enumerate starts at 1): the
sanitized stripped title, or "Article_i" when that sanitization is empty
(Python `or` falls back exactly on the empty string). -/
def safeName (i : Nat) (title : Str) : Str :=
  let s := sanitize_filename (pyStrip title)
  if s = [] then ("Article_").data ++ Nat.toDigits 10 i else s

/-- The text written for one article: stripped title, an underline of '='
of the same length, a blank line, the stripped content. -/
def articleBody (title content : Str) : Str :=
  pyStrip title ++ '\n' :: (List.replicate (pyStrip title).length '='
    ++ '\n' :: '\n' :: pyStrip content)

/-- The (path, payload) write performed for the i-th parsed article. -/
def articleWrite (folder : Str) (i : Nat) (title content : Str) : Str × Str :=
  (pathJoin folder (safeName i title ++ (".txt").data), articleBody title content)

/-- enumerate(articles, start=i). -/
def numberFrom : Nat → List (Str × Str) → List (Nat × (Str × Str))
  | _, [] => []
  | i, a :: as => (i, a) :: numberFrom (i + 1) as

/-- save_articles: generate, strip, parse all ARTICLE blocks (the whole text
becomes one "Generated_Article" when none parse), write one file per block. -/
def save_articles (gen : Str → Str) (output_folder prompt : Str) : List (Str × Str) :=
  let text := pyStrip (gen (article_instruction prompt))
  let articles := findArticles text
  let articles := if articles = [] then [(("Generated_Article").data, text)] else articles
  (numberFrom 1 articles).map (fun p => articleWrite output_folder p.1 p.2.1 p.2.2)

/-- The instruction save_notes sends. -/
def notes_instruction (prompt : Str) : Str :=
  ("Write structured study notes on: ").data ++ prompt

/-- save_notes: one write of the stripped response to notes.txt. -/
def save_notes (gen : Str → Str) (output_folder prompt : Str) : List (Str × Str) :=
  [(pathJoin output_folder (("notes.txt").data), pyStrip (gen (notes_instruction prompt)))]

/-- The instruction save_qna sends. -/
def qna_instruction (prompt : Str) : Str :=
  ("Generate 10 question and answer pairs on: ").data ++ prompt ++ (". ").data
    ++ ("Format as:\nQ: <question>\nA: <answer>\n").data

/-- save_qna: one write of the stripped response to QnA.txt. -/
def save_qna (gen : Str → Str) (output_folder prompt : Str) : List (Str × Str) :=
  [(pathJoin output_folder (("QnA.txt").data), pyStrip (gen (qna_instruction prompt)))]

/-- A spreadsheet cell: the program writes numbers and strings. -/
inductive Cell where
  | nat (n : Nat)
  | str (s : Str)
deriving DecidableEq, Repr

/-- A produced workbook: its path, the header row, the data rows. -/
structure ExcelFile where
  path : Str
  header : List Str
  rows : List (List Cell)
deriving DecidableEq, Repr

/-- The fixed department pool of the employee schema. -/
def departments : List Str :=
  [("HR").data, ("IT").data, ("Finance").data, ("Marketing").data]

/-- The fixed course pool of the student schema. -/
def courses : List Str :=
  [("Math").data, ("CS").data, ("Physics").data, ("Biology").data]

/-- random.choice on a nonempty pool, fed by one oracle draw. -/
def pyChoice (l : List Str) (v : Nat) : Str :=
  l.getD (v % l.length) []

/-- random.randint a b, fed by one oracle draw: a value in [a, b]. -/
def pyRandint (a b v : Nat) : Nat :=
  a + v % (b + 1 - a)

/-- save_excel: row count from the first integer of the task (default 10),
schema chosen by "employee" then "student" substring tests on the lowered
task, synthetic rows from the random oracle (two draws per row in the first
two schemas, one in the third). -/
def save_excel (g : Nat → Nat) (output_folder prompt : Str) : ExcelFile :=
  let n := (firstInt prompt).getD 10
  if containsSub (("employee").data) (lower prompt) then
    { path := pathJoin output_folder (("employees.xlsx").data)
      header := [("ID").data, ("Name").data, ("Department").data, ("Salary").data]
      rows := (List.range n).map (fun i =>
        [Cell.nat (i + 1),
         Cell.str (("Employee_").data ++ Nat.toDigits 10 (i + 1)),
         Cell.str (pyChoice departments (g (2 * i))),
         Cell.nat (pyRandint 30000 100000 (g (2 * i + 1)))]) }
  else if containsSub (("student").data) (lower prompt) then
    { path := pathJoin output_folder (("students.xlsx").data)
      header := [("Roll No").data, ("Name").data, ("Course").data, ("Marks").data]
      rows := (List.range n).map (fun i =>
        [Cell.nat (i + 1),
         Cell.str (("Student_").data ++ Nat.toDigits 10 (i + 1)),
         Cell.str (pyChoice courses (g (2 * i))),
         Cell.nat (pyRandint 40 100 (g (2 * i + 1)))]) }
  else
    { path := pathJoin output_folder (("data.xlsx").data)
      header := [("ID").data, ("Name").data, ("Value").data]
      rows := (List.range n).map (fun i =>
        [Cell.nat (i + 1),
         Cell.str (("Item_").data ++ Nat.toDigits 10 (i + 1)),
         Cell.nat (pyRandint 1 500 (g i))]) }

/-- The instruction save_doc sends. -/
def doc_instruction (prompt : Str) : Str :=
  ("Write a structured document on: ").data ++ prompt

/-- save_doc: document.docx with the task as heading and the stripped
response as paragraph: (path, heading, paragraph). -/
def save_doc (gen : Str → Str) (output_folder prompt : Str) : Str × Str × Str :=
  (pathJoin output_folder (("document.docx").data), prompt,
   pyStrip (gen (doc_instruction prompt)))

/-- The instruction save_pdf sends. -/
def pdf_instruction (prompt : Str) : Str :=
  ("Write a detailed PDF report on: ").data ++ prompt

/-- save_pdf: report.pdf with the task as heading and one paragraph per
newline-delimited line of the stripped response: (path, heading, paragraphs). -/
def save_pdf (gen : Str → Str) (output_folder prompt : Str) : Str × Str × List Str :=
  (pathJoin output_folder (("report.pdf").data), prompt,
   splitLines (pyStrip (gen (pdf_instruction prompt))))

/-- The instruction save_ppt sends. -/
def ppt_instruction (prompt : Str) : Str :=
  ("Write bullet points for 5 slides on: ").data ++ prompt ++ (". ").data
    ++ ("Strict format:\nSLIDE <n>: <Title>\n- point 1\n- point 2\n...").data

/-- Index of the last newline of a string, if any. -/
def lastNl : Str → Option Nat
  | [] => none
  | c :: s =>
    match lastNl s with
    | some i => some (i + 1)
    | none => if c = '\n' then some 0 else none

/-- One match attempt of the slide regex
SLIDE\s*\d+:\s*(.*?)\n([\s\S]*?)(?=SLIDE|\Z) at the current position:
literal "SLIDE", a whitespace run, a nonempty digit run, ':', then the
greedy \s* and the lazy title interact so the title starts after
min(whitespace-run, last-newline) and ends at the next newline; the lazy
body ends at the next "SLIDE" (a lookahead, so it is not consumed) or at
the end of the text.  Returns (title, body, text after the match). -/
def matchSlide (s : Str) : Option (Str × Str × Str) :=
  if (("SLIDE").data).isPrefixOf s then
    let s1 := (s.drop 5).dropWhile isPySpace
    let ds := s1.takeWhile isDigitCh
    if ds = [] then none
    else
      match s1.drop ds.length with
      | ':' :: s4 =>
        match lastNl s4 with
        | none => none
        | some pmax =>
          let k := min (s4.takeWhile isPySpace).length pmax
          let title := (s4.drop k).takeWhile (fun c => c ≠ '\n')
          let rest := (s4.drop k).drop (title.length + 1)
          match findSub (("SLIDE").data) rest with
          | some j => some (title, rest.take j, rest.drop j)
          | none => some (title, rest, [])
      | _ => none
  else none

/-- re.findall of the slide pattern: scan position by position; on a match
continue at the position where the lookahead stopped.  Fuel bounds the
recursion; callers pass the text length, which suffices since a match
consumes characters and a failure advances one position. -/
def findSlidesAux : Nat → Str → List (Str × Str)
  | 0, _ => []
  | fuel + 1, s =>
    match s with
    | [] => []
    | _ :: tail =>
      match matchSlide s with
      | some (t, c, r) => (t, c) :: findSlidesAux fuel r
      | none => findSlidesAux fuel tail

/-- All slide blocks parsed from a response text. -/
def findSlides (s : Str) : List (Str × Str) :=
  findSlidesAux s.length s

/-- The bullet paragraphs of one slide body: the lines whose stripped form
starts with '-', each with the marker dropped and re-stripped (the first one
replaces the layout's default text, the rest are appended — in either case
the body holds exactly this list, in order). -/
def slideBullets (content : Str) : List Str :=
  (splitLines (pyStrip content)).filterMap (fun line =>
    let l := pyStrip line
    match l with
    | '-' :: restOfLine => some (pyStrip restOfLine)
    | _ => none)

/-- save_ppt: slides.pptx; zero parsed blocks fall back to a single slide
titled with the task and holding the stripped response as its only body
text, otherwise one slide per parsed block with its stripped title and its
bullet lines.  Returns (path, slides as (title, body paragraphs)). -/
def save_ppt (gen : Str → Str) (output_folder prompt : Str) :
    Str × List (Str × List Str) :=
  let resp := gen (ppt_instruction prompt)
  let slides := findSlides resp
  (pathJoin output_folder (("slides.pptx").data),
   if slides = [] then [(prompt, [pyStrip resp])]
   else slides.map (fun p => (pyStrip p.1, slideBullets p.2)))

/-- The handler a task is routed to (the else branch prints the
unsupported-task message and writes nothing). -/
inductive Route where
  | article
  | notes
  | qna
  | excel
  | doc
  | pdf
  | ppt
  | unsupported
deriving DecidableEq, Repr

/-- handle_task's routing chain: case-insensitive substring tests in source
order, first hit wins. -/
def route (task : Str) : Route :=
  let t := lower task
  if containsSub (("article").data) t then .article
  else if containsSub (("note").data) t then .notes
  else if containsSub (("q").data) t && containsSub (("a").data) t then .qna
  else if containsSub (("excel").data) t || containsSub (("spreadsheet").data) t then .excel
  else if containsSub (("doc").data) t || containsSub (("word").data) t then .doc
  else if containsSub (("pdf").data) t then .pdf
  else if containsSub (("ppt").data) t || containsSub (("presentation").data) t
          || containsSub (("slides").data) t then .ppt
  else .unsupported

/-- One produced filesystem artifact, by handler kind. -/
inductive Artifact where
  | text (path content : Str)
  | xlsx (f : ExcelFile)
  | docx (path heading para : Str)
  | pdf (path heading : Str) (paras : List Str)
  | pptx (path : Str) (slides : List (Str × List Str))
deriving DecidableEq, Repr

/-- handle_task: route the task and run the chosen handler; the Bool is true
exactly when the unsupported-task message is printed (and then no artifact
is produced and no exception can arise — every branch is total). -/
def handle_task (gen : Str → Str) (g : Nat → Nat) (task output_folder : Str) :
    List Artifact × Bool :=
  match route task with
  | .article => ((save_articles gen output_folder task).map (fun w => Artifact.text w.1 w.2), false)
  | .notes => ((save_notes gen output_folder task).map (fun w => Artifact.text w.1 w.2), false)
  | .qna => ((save_qna gen output_folder task).map (fun w => Artifact.text w.1 w.2), false)
  | .excel => ([Artifact.xlsx (save_excel g output_folder task)], false)
  | .doc =>
    let d := save_doc gen output_folder task
    ([Artifact.docx d.1 d.2.1 d.2.2], false)
  | .pdf =>
    let d := save_pdf gen output_folder task
    ([Artifact.pdf d.1 d.2.1 d.2.2], false)
  | .ppt =>
    let d := save_ppt gen output_folder task
    ([Artifact.pptx d.1 d.2], false)
  | .unsupported => ([], true)

/-- The output folder actually used: the stripped input, or "outputs" when
that is empty. -/
def chosenFolder (folder : Str) : Str :=
  if pyStrip folder = [] then ("outputs").data else pyStrip folder

/-- The interactive loop over a list of (task, folder) inputs: stop at a
task lowering to "exit", otherwise handle the task and continue with the
next input.  Each element of the result is one iteration's outcome. -/
def ai_agent (gen : Str → Str) (g : Nat → Nat) :
    List (Str × Str) → List (List Artifact × Bool)
  | [] => []
  | (task, folder) :: rest =>
    if lower task = ("exit").data then []
    else handle_task gen g task (chosenFolder folder) :: ai_agent gen g rest

/-- The last write wins: fold the write list into a final (path, content)
association list. -/
def writeFs (fs : List (Str × Str)) (w : Str × Str) : List (Str × Str) :=
  (fs.filter (fun e => !(e.1 == w.1))) ++ [w]

/-- The final filesystem contents after a handler's writes. -/
def applyWrites (ws : List (Str × Str)) : List (Str × Str) :=
  ws.foldl writeFs []

/-- The dispatch table the specification describes: the ordered list of
(predicate, handler) rules, evaluated first to last on the lowered task. -/
def dispatchRules : List ((Str → Bool) × Route) :=
  [ (fun t => containsSub (("article").data) t, .article),
    (fun t => containsSub (("note").data) t, .notes),
    (fun t => containsSub (("q").data) t && containsSub (("a").data) t, .qna),
    (fun t => containsSub (("excel").data) t || containsSub (("spreadsheet").data) t, .excel),
    (fun t => containsSub (("doc").data) t || containsSub (("word").data) t, .doc),
    (fun t => containsSub (("pdf").data) t, .pdf),
    (fun t => containsSub (("ppt").data) t || containsSub (("presentation").data) t
        || containsSub (("slides").data) t, .ppt) ]

/-- First matching rule wins; no rule means the unsupported report. -/
def firstMatch : List ((Str → Bool) × Route) → Str → Route
  | [], _ => .unsupported
  | (p, h) :: rs, t => if p t then h else firstMatch rs t

/-- No occurrence of "ARTICLE START\n" begins before position n of s. -/
abbrev noStartBefore (s : Str) (n : Nat) : Prop :=
  ∀ i < n, ¬ startPat.isPrefixOf (s.drop i) = true

/-- No occurrence of "\nARTICLE END" begins before position n of s. -/
abbrev noEndBefore (s : Str) (n : Nat) : Prop :=
  ∀ i < n, ¬ endPat.isPrefixOf (s.drop i) = true

/-- The text a well-formed article block contributes after its
"ARTICLE START\n" delimiter: title, newline, content, "\nARTICLE END",
then the rest of the response. -/
def blockTail (t c r : Str) : Str :=
  t ++ '\n' :: (c ++ (endPat ++ r))

/-- A response holding exactly two well-formed article blocks: anything
without a block start, the first block, anything without a block start,
the second block, then a tail. -/
def twoBlockText (pre t1 c1 mid t2 c2 tail : Str) : Str :=
  pre ++ (startPat ++ blockTail t1 c1 (mid ++ (startPat ++ blockTail t2 c2 tail)))

/-- None of the dispatcher's seven keyword rules fires on the (lowered)
task. -/
abbrev matchesNoRule (t : Str) : Prop :=
  containsSub (("article").data) t = false
  ∧ containsSub (("note").data) t = false
  ∧ (containsSub (("q").data) t && containsSub (("a").data) t) = false
  ∧ (containsSub (("excel").data) t || containsSub (("spreadsheet").data) t) = false
  ∧ (containsSub (("doc").data) t || containsSub (("word").data) t) = false
  ∧ containsSub (("pdf").data) t = false
  ∧ (containsSub (("ppt").data) t || containsSub (("presentation").data) t
      || containsSub (("slides").data) t) = false

/-! ## List helpers -/

theorem isPrefixOf_append_self (p r : Str) : p.isPrefixOf (p ++ r) = true := by
  induction p with
  | nil => simp [List.isPrefixOf]
  | cons a t ih => simp [List.isPrefixOf, ih]

theorem isPrefixOf_eq_nil (p : Str) (h : p.isPrefixOf ([] : Str) = true) : p = [] := by
  cases p with
  | nil => rfl
  | cons a t => simp [List.isPrefixOf] at h

theorem drop_len_add (a b : Str) (n : Nat) :
    (a ++ b).drop (a.length + n) = b.drop n := by
  rw [← List.drop_drop, List.drop_left]

/-- First occurrence at the end of `a`: `pat` is a prefix of `b` and occurs
nowhere earlier. -/
theorem findSub_append (pat a b : Str) (hne : pat ≠ [])
    (hb : pat.isPrefixOf b = true)
    (hno : ∀ i < a.length, ¬ pat.isPrefixOf ((a ++ b).drop i) = true) :
    findSub pat (a ++ b) = some a.length := by
  revert hno
  induction a with
  | nil =>
    intro _
    cases b with
    | nil => exact absurd (isPrefixOf_eq_nil pat hb) hne
    | cons c s => simp [findSub, hb]
  | cons x a' ih =>
    intro hno
    have h0 : ¬ pat.isPrefixOf (x :: (a' ++ b)) = true := by
      have := hno 0 (by simp)
      simpa using this
    have ih' := ih (fun i hi => by
      have := hno (i + 1) (by simpa using Nat.succ_lt_succ hi)
      simpa using this)
    simp [findSub, h0, ih']

theorem findSub_of_isPrefixOf (pat s : Str) (hs : s ≠ [])
    (h : pat.isPrefixOf s = true) : findSub pat s = some 0 := by
  cases s with
  | nil => exact absurd rfl hs
  | cons c t => simp [findSub, h]

/-! ## C3: the sanitizer -/

/-- Claim C3: for every input the sanitizer's output has only characters in
[A-Za-z0-9_-] and length at most 50 (each other character having been
replaced by an underscore before truncation), and on inputs that already
consist of such characters with length at most 50 it is the identity. -/
theorem C3_sanitize_spec (s : Str) :
    (sanitize_filename s).length ≤ 50
    ∧ (∀ c ∈ sanitize_filename s, isValidFilenameChar c = true)
    ∧ sanitize_filename s
        = (s.map (fun c => if isValidFilenameChar c then c else '_')).take 50
    ∧ ((∀ c ∈ s, isValidFilenameChar c = true) → s.length ≤ 50 →
        sanitize_filename s = s) := by
  refine ⟨?_, ?_, rfl, ?_⟩
  · simp [sanitize_filename, List.length_take]
  · intro c hc
    have hc' := List.mem_of_mem_take hc
    rcases List.mem_map.1 hc' with ⟨a, _, rfl⟩
    by_cases h : isValidFilenameChar a = true
    · simp [h]
    · simp [h]
      decide
  · intro hvalid hlen
    have hmap : s.map (fun c => if isValidFilenameChar c then c else '_') = s := by
      induction s with
      | nil => rfl
      | cons a t ih =>
        have ha := hvalid a (List.mem_cons_self a t)
        have ht := ih (fun c hc => hvalid c (List.mem_cons_of_mem a hc))
          (le_trans (by simp) hlen)
        simp [ha, ht]
    rw [sanitize_filename, hmap]
    exact List.take_of_length_le hlen

/-- C3 witness: a concrete all-valid input of length at most 50 is returned
unchanged. -/
theorem C3_sanitize_spec_witness :
    sanitize_filename (("abc_DEF-123").data) = ("abc_DEF-123").data :=
  (C3_sanitize_spec (("abc_DEF-123").data)).2.2.2 (by decide) (by decide)

/-! ## C1: dispatcher priority order -/

/-- Claim C1: the dispatcher tries the case-insensitive substring rules in
the fixed order article, note, q-and-a, excel/spreadsheet, doc/word, pdf,
ppt/presentation/slides and takes the first hit; on the task
"Generate 5 question and answer pairs" the Q&A handler is selected because
"q" and "a" both occur, even though "excel" and "pdf" are absent. -/
theorem C1_dispatch_priority :
    (∀ task : Str, route task = firstMatch dispatchRules (lower task))
    ∧ route (("Generate 5 question and answer pairs").data) = Route.qna
    ∧ containsSub (("q").data) (lower (("Generate 5 question and answer pairs").data)) = true
    ∧ containsSub (("a").data) (lower (("Generate 5 question and answer pairs").data)) = true
    ∧ containsSub (("excel").data) (lower (("Generate 5 question and answer pairs").data)) = false
    ∧ containsSub (("pdf").data) (lower (("Generate 5 question and answer pairs").data)) = false := by
  refine ⟨fun task => rfl, by decide, by decide, by decide, by decide, by decide⟩

/-! ## C2 and C9: the spreadsheet handler -/

theorem pyChoice_mem (l : List Str) (v : Nat) (h : 0 < l.length) :
    pyChoice l v ∈ l := by
  have hv : v % l.length < l.length := Nat.mod_lt _ h
  rw [pyChoice, List.getD_eq_getElem _ _ hv]
  exact List.getElem_mem hv

theorem pyRandint_bounds (a b v : Nat) (hab : a ≤ b) :
    a ≤ pyRandint a b v ∧ pyRandint a b v ≤ b := by
  have h : v % (b + 1 - a) < b + 1 - a := Nat.mod_lt _ (by omega)
  rw [pyRandint]
  omega

/-- Claim C2: every spreadsheet task produces as many data rows as the first
integer in the task text (10 when there is none); on "Create excel sheet for
7 employees" there are exactly 7 data rows, the header is ID, Name,
Department, Salary, every department comes from the fixed pool and every
salary lies in [30000, 100000]. -/
theorem C2_excel_rows (g : Nat → Nat) (folder prompt : Str) :
    (save_excel g folder prompt).rows.length = (firstInt prompt).getD 10
    ∧ (save_excel g folder (("Create excel sheet for 7 employees").data)).rows.length = 7
    ∧ (save_excel g folder (("Create excel sheet for 7 employees").data)).header
        = [("ID").data, ("Name").data, ("Department").data, ("Salary").data]
    ∧ (save_excel g folder (("Create excel sheet for 7 employees").data)).path
        = pathJoin folder (("employees.xlsx").data)
    ∧ ∀ r ∈ (save_excel g folder (("Create excel sheet for 7 employees").data)).rows,
        ∃ i nm dept sal,
          r = [Cell.nat i, Cell.str nm, Cell.str dept, Cell.nat sal]
          ∧ dept ∈ departments ∧ 30000 ≤ sal ∧ sal ≤ 100000 := by
  have hemp : containsSub (("employee").data)
      (lower (("Create excel sheet for 7 employees").data)) = true := by decide
  have hn : firstInt (("Create excel sheet for 7 employees").data) = some 7 := by decide
  refine ⟨?_, ?_, ?_, ?_, ?_⟩
  · rw [save_excel]
    split
    · simp
    · split <;> simp
  · simp [save_excel, hemp, hn]
  · simp [save_excel, hemp]
  · simp [save_excel, hemp]
  · intro r hr
    simp only [save_excel, hemp, if_pos, hn] at hr
    simp only [List.mem_map] at hr
    rcases hr with ⟨i, _, rfl⟩
    refine ⟨i + 1, ("Employee_").data ++ Nat.toDigits 10 (i + 1),
      pyChoice departments (g (2 * i)), pyRandint 30000 100000 (g (2 * i + 1)),
      rfl, pyChoice_mem _ _ (by decide), ?_, ?_⟩
    · exact (pyRandint_bounds 30000 100000 _ (by omega)).1
    · exact (pyRandint_bounds 30000 100000 _ (by omega)).2

/-- C2 witness: the first row of the workbook produced for "Create excel
sheet for 7 employees" under the all-zero random oracle has its department
in the pool and its salary in range. -/
theorem C2_excel_rows_witness :
    ∃ i nm dept sal,
      [Cell.nat 1, Cell.str (("Employee_1").data), Cell.str (("HR").data), Cell.nat 30000]
        = [Cell.nat i, Cell.str nm, Cell.str dept, Cell.nat sal]
      ∧ dept ∈ departments ∧ 30000 ≤ sal ∧ sal ≤ 100000 :=
  (C2_excel_rows (fun _ => 0) (("out").data) (("x").data)).2.2.2.2
    [Cell.nat 1, Cell.str (("Employee_1").data), Cell.str (("HR").data), Cell.nat 30000]
    (by decide)

/-- Claim C9: a spreadsheet task whose lowered text contains "employee" is
given the employee schema (header ID, Name, Department, Salary and file
employees.xlsx) even when it also contains "student", because the employee
test is evaluated first. -/
theorem C9_employee_precedence (g : Nat → Nat) (folder prompt : Str)
    (hemp : containsSub (("employee").data) (lower prompt) = true)
    (_hstud : containsSub (("student").data) (lower prompt) = true) :
    (save_excel g folder prompt).header
      = [("ID").data, ("Name").data, ("Department").data, ("Salary").data]
    ∧ (save_excel g folder prompt).path = pathJoin folder (("employees.xlsx").data) := by
  constructor <;> simp [save_excel, hemp]

/-- C9 witness: the task "excel for employees and students" matches both
substring tests and receives the employee schema. -/
theorem C9_employee_precedence_witness :
    (save_excel (fun _ => 0) (("out").data) (("excel for employees and students").data)).header
      = [("ID").data, ("Name").data, ("Department").data, ("Salary").data]
    ∧ (save_excel (fun _ => 0) (("out").data) (("excel for employees and students").data)).path
      = pathJoin (("out").data) (("employees.xlsx").data) :=
  C9_employee_precedence (fun _ => 0) (("out").data)
    (("excel for employees and students").data) (by decide) (by decide)

/-! ## Article parsing: structure lemmas -/

theorem no_single_char_hit (c : Char) (t X : Str) :
    c ∉ t → ∀ i < t.length, ¬ ([c] : Str).isPrefixOf ((t ++ X).drop i) = true := by
  induction t with
  | nil => intro _ i hi; simp at hi
  | cons x t' ih =>
    intro h i hi
    cases i with
    | zero =>
      have hcx : ¬ c = x := fun hcx => h (by simp [hcx])
      simp [List.isPrefixOf, hcx]
    | succ j =>
      have h' : c ∉ t' := fun hm => h (List.mem_cons_of_mem _ hm)
      have hj : j < t'.length := by simpa using Nat.lt_of_succ_lt_succ hi
      simpa using ih h' j hj

/-- The lazy groups of the article regex on a well-formed block: the title
up to its newline, the content up to the closing delimiter. -/
theorem matchGroups_block (t c r : Str) (ht : '\n' ∉ t)
    (hc : noEndBefore (c ++ (endPat ++ r)) c.length) :
    matchGroups (blockTail t c r) = some (t, c, r) := by
  have hnl : findSub (['\n']) (t ++ '\n' :: (c ++ (endPat ++ r))) = some t.length := by
    have hb : (['\n'] : Str).isPrefixOf ('\n' :: (c ++ (endPat ++ r))) = true := by
      simp [List.isPrefixOf]
    exact findSub_append _ t _ (by simp) hb (no_single_char_hit '\n' t _ ht)
  have hend : findSub endPat (c ++ (endPat ++ r)) = some c.length :=
    findSub_append _ c _ (by decide) (isPrefixOf_append_self _ _) hc
  have hdrop1 : (t ++ '\n' :: (c ++ (endPat ++ r))).drop (t.length + 1)
      = c ++ (endPat ++ r) := by
    simpa using drop_len_add t ('\n' :: (c ++ (endPat ++ r))) 1
  have htake1 : (t ++ '\n' :: (c ++ (endPat ++ r))).take t.length = t :=
    List.take_left t _
  have hdrop2 : (c ++ (endPat ++ r)).drop (c.length + 12) = r := by
    rw [drop_len_add c (endPat ++ r) 12]
    exact List.drop_left' (by decide)
  have htake2 : (c ++ (endPat ++ r)).take c.length = c := List.take_left c _
  simp only [blockTail, matchGroups, hnl, hdrop1, htake1, hend, hdrop2, htake2]

/-- One scan step of findall over a well-formed block: the block's groups
are emitted and the scan resumes right after "ARTICLE END". -/
theorem findArticlesAux_block (fuel : Nat) (hf : 1 ≤ fuel) (pre t c r : Str)
    (hpre : noStartBefore (pre ++ (startPat ++ blockTail t c r)) pre.length)
    (ht : '\n' ∉ t)
    (hc : noEndBefore (c ++ (endPat ++ r)) c.length) :
    findArticlesAux fuel (pre ++ (startPat ++ blockTail t c r))
      = (t, c) :: findArticlesAux (fuel - 1) r := by
  obtain ⟨f, rfl⟩ : ∃ f, fuel = f + 1 := ⟨fuel - 1, by omega⟩
  have hstart : findSub startPat (pre ++ (startPat ++ blockTail t c r))
      = some pre.length :=
    findSub_append _ pre _ (by decide) (isPrefixOf_append_self _ _) hpre
  have hdrop : (pre ++ (startPat ++ blockTail t c r)).drop (pre.length + 14)
      = blockTail t c r := by
    rw [drop_len_add]
    exact List.drop_left' (by decide)
  simp only [findArticlesAux, hstart, hdrop, matchGroups_block t c r ht hc,
    Nat.add_sub_cancel]

/-- Without any "ARTICLE START\n" at all, the scan finds nothing. -/
theorem findArticlesAux_none (fuel : Nat) (s : Str)
    (h : findSub startPat s = none) : findArticlesAux fuel s = [] := by
  cases fuel with
  | zero => rfl
  | succ f => simp [findArticlesAux, h]

theorem twoBlockText_length_ge (pre t1 c1 mid t2 c2 tail : Str) :
    2 ≤ (twoBlockText pre t1 c1 mid t2 c2 tail).length := by
  have hsp : startPat.length = 14 := by decide
  have hep : endPat.length = 12 := by decide
  simp [twoBlockText, blockTail, hsp, hep]
  omega

/-- findall on a two-block response yields exactly the two (title, content)
pairs. -/
theorem findArticles_twoBlocks (pre t1 c1 mid t2 c2 tail : Str)
    (hpre : noStartBefore (twoBlockText pre t1 c1 mid t2 c2 tail) pre.length)
    (ht1 : '\n' ∉ t1)
    (hc1 : noEndBefore (c1 ++ (endPat ++ (mid ++ (startPat ++ blockTail t2 c2 tail)))) c1.length)
    (hmid : noStartBefore (mid ++ (startPat ++ blockTail t2 c2 tail)) mid.length)
    (ht2 : '\n' ∉ t2)
    (hc2 : noEndBefore (c2 ++ (endPat ++ tail)) c2.length)
    (htail : findSub startPat tail = none) :
    findArticles (twoBlockText pre t1 c1 mid t2 c2 tail) = [(t1, c1), (t2, c2)] := by
  have hL : 2 ≤ (pre ++ (startPat
      ++ blockTail t1 c1 (mid ++ (startPat ++ blockTail t2 c2 tail)))).length :=
    twoBlockText_length_ge pre t1 c1 mid t2 c2 tail
  rw [findArticles]
  rw [show twoBlockText pre t1 c1 mid t2 c2 tail
      = pre ++ (startPat ++ blockTail t1 c1 (mid ++ (startPat ++ blockTail t2 c2 tail)))
      from rfl]
  rw [findArticlesAux_block _ (by omega) pre t1 c1 _ hpre ht1 hc1]
  rw [findArticlesAux_block _ (by omega) mid t2 c2 tail hmid ht2 hc2]
  rw [findArticlesAux_none _ tail htail]

/-! ## C4, C6, C10: the article handler -/

/-- Claim C4: on a response holding exactly two well-formed ARTICLE
START/END blocks the handler performs exactly two writes, one per block,
each named from the block's sanitized title (through safe_title, whose
Article_i fallback covers empty sanitizations) and each starting with the
title line followed by an underline of '=' of the title's length; when the
two derived names differ those writes are two distinct files. -/
theorem C4_two_article_blocks (gen : Str → Str)
    (folder prompt pre t1 c1 mid t2 c2 tail : Str)
    (hresp : pyStrip (gen (article_instruction prompt))
      = twoBlockText pre t1 c1 mid t2 c2 tail)
    (hpre : noStartBefore (twoBlockText pre t1 c1 mid t2 c2 tail) pre.length)
    (ht1 : '\n' ∉ t1)
    (hc1 : noEndBefore (c1 ++ (endPat ++ (mid ++ (startPat ++ blockTail t2 c2 tail)))) c1.length)
    (hmid : noStartBefore (mid ++ (startPat ++ blockTail t2 c2 tail)) mid.length)
    (ht2 : '\n' ∉ t2)
    (hc2 : noEndBefore (c2 ++ (endPat ++ tail)) c2.length)
    (htail : findSub startPat tail = none) :
    save_articles gen folder prompt
      = [articleWrite folder 1 t1 c1, articleWrite folder 2 t2 c2]
    ∧ (articleWrite folder 1 t1 c1).2
        = pyStrip t1 ++ '\n' :: (List.replicate (pyStrip t1).length '='
            ++ '\n' :: '\n' :: pyStrip c1)
    ∧ (articleWrite folder 2 t2 c2).2
        = pyStrip t2 ++ '\n' :: (List.replicate (pyStrip t2).length '='
            ++ '\n' :: '\n' :: pyStrip c2)
    ∧ ((articleWrite folder 1 t1 c1).1 ≠ (articleWrite folder 2 t2 c2).1 →
        ((save_articles gen folder prompt).map Prod.fst).dedup.length = 2) := by
  have hparse := findArticles_twoBlocks pre t1 c1 mid t2 c2 tail
    hpre ht1 hc1 hmid ht2 hc2 htail
  have hsave : save_articles gen folder prompt
      = [articleWrite folder 1 t1 c1, articleWrite folder 2 t2 c2] := by
    simp only [save_articles]
    rw [hresp, hparse]
    simp [numberFrom]
  refine ⟨hsave, rfl, rfl, ?_⟩
  intro hne
  rw [hsave]
  have hnm : (articleWrite folder 1 t1 c1).1
      ∉ [(articleWrite folder 2 t2 c2).1] := by simpa using hne
  simp [List.dedup_cons_of_not_mem hnm]

/-- C4 witness: a concrete well-formed two-block response yields the two
expected writes. -/
theorem C4_two_article_blocks_witness :
    save_articles
      (fun _ => ("ARTICLE START\nT1\nbody one\nARTICLE END\n\nARTICLE START\nT2\nbody two\nARTICLE END").data)
      (("out").data) (("article please").data)
      = [articleWrite (("out").data) 1 (("T1").data) (("body one").data),
         articleWrite (("out").data) 2 (("T2").data) (("body two").data)] :=
  (C4_two_article_blocks
    (fun _ => ("ARTICLE START\nT1\nbody one\nARTICLE END\n\nARTICLE START\nT2\nbody two\nARTICLE END").data)
    (("out").data) (("article please").data)
    [] (("T1").data) (("body one").data) (("\n\n").data)
    (("T2").data) (("body two").data) []
    (by decide) (by decide) (by decide) (by decide) (by decide)
    (by decide) (by decide) (by decide)).1

/-- Claim C6: when the ARTICLE delimiter pattern matches nowhere in the
stripped response, the handler writes exactly one file, treating the whole
text as a single fallback article titled Generated_Article. -/
theorem C6_article_parse_miss (gen : Str → Str) (folder prompt : Str)
    (h : findArticles (pyStrip (gen (article_instruction prompt))) = []) :
    save_articles gen folder prompt
      = [articleWrite folder 1 (("Generated_Article").data)
          (pyStrip (gen (article_instruction prompt)))]
    ∧ (articleWrite folder 1 (("Generated_Article").data)
        (pyStrip (gen (article_instruction prompt)))).1
      = pathJoin folder (("Generated_Article.txt").data)
    ∧ (save_articles gen folder prompt).length = 1 := by
  have hname : safeName 1 (("Generated_Article").data) ++ (".txt").data
      = ("Generated_Article.txt").data := by decide
  have hsave : save_articles gen folder prompt
      = [articleWrite folder 1 (("Generated_Article").data)
          (pyStrip (gen (article_instruction prompt)))] := by
    simp only [save_articles]
    rw [h]
    simp [numberFrom]
  refine ⟨hsave, ?_, by rw [hsave]; rfl⟩
  simp only [articleWrite]
  rw [hname]

/-- C6 witness: a delimiter-free response produces the single fallback
write. -/
theorem C6_article_parse_miss_witness :
    save_articles (fun _ => ("hello there").data) (("out").data) (("an article").data)
      = [articleWrite (("out").data) 1 (("Generated_Article").data)
          (pyStrip ((fun _ : Str => ("hello there").data) (article_instruction (("an article").data))))] :=
  (C6_article_parse_miss (fun _ => ("hello there").data) (("out").data)
    (("an article").data) (by decide)).1

/-- Claim C10: when two parsed articles have titles sanitizing to the same
nonempty name, both writes target the same path and the later content
overwrites the earlier, so fewer files remain than articles were parsed;
the Article_i fallback applies only to an empty sanitized (stripped) title,
never to duplicates. -/
theorem C10_duplicate_titles (gen : Str → Str)
    (folder prompt pre t1 c1 mid t2 c2 tail : Str)
    (hresp : pyStrip (gen (article_instruction prompt))
      = twoBlockText pre t1 c1 mid t2 c2 tail)
    (hpre : noStartBefore (twoBlockText pre t1 c1 mid t2 c2 tail) pre.length)
    (ht1 : '\n' ∉ t1)
    (hc1 : noEndBefore (c1 ++ (endPat ++ (mid ++ (startPat ++ blockTail t2 c2 tail)))) c1.length)
    (hmid : noStartBefore (mid ++ (startPat ++ blockTail t2 c2 tail)) mid.length)
    (ht2 : '\n' ∉ t2)
    (hc2 : noEndBefore (c2 ++ (endPat ++ tail)) c2.length)
    (htail : findSub startPat tail = none)
    (hdup : sanitize_filename (pyStrip t1) = sanitize_filename (pyStrip t2))
    (hnonempty : sanitize_filename (pyStrip t1) ≠ []) :
    save_articles gen folder prompt
      = [(pathJoin folder (sanitize_filename (pyStrip t1) ++ (".txt").data),
          articleBody t1 c1),
         (pathJoin folder (sanitize_filename (pyStrip t1) ++ (".txt").data),
          articleBody t2 c2)]
    ∧ applyWrites (save_articles gen folder prompt)
      = [(pathJoin folder (sanitize_filename (pyStrip t1) ++ (".txt").data),
          articleBody t2 c2)]
    ∧ ((save_articles gen folder prompt).map Prod.fst).dedup.length = 1
    ∧ (save_articles gen folder prompt).length = 2
    ∧ (∀ (i : Nat) (title : Str), sanitize_filename (pyStrip title) ≠ [] →
        safeName i title = sanitize_filename (pyStrip title)) := by
  have hparse := findArticles_twoBlocks pre t1 c1 mid t2 c2 tail
    hpre ht1 hc1 hmid ht2 hc2 htail
  have hsafe : ∀ (i : Nat) (title : Str), sanitize_filename (pyStrip title) ≠ [] →
      safeName i title = sanitize_filename (pyStrip title) := by
    intro i title hne
    simp [safeName, hne]
  have hw1 : articleWrite folder 1 t1 c1
      = (pathJoin folder (sanitize_filename (pyStrip t1) ++ (".txt").data),
         articleBody t1 c1) := by
    simp [articleWrite, hsafe 1 t1 hnonempty]
  have hw2 : articleWrite folder 2 t2 c2
      = (pathJoin folder (sanitize_filename (pyStrip t1) ++ (".txt").data),
         articleBody t2 c2) := by
    have hne2 : sanitize_filename (pyStrip t2) ≠ [] := by rw [← hdup]; exact hnonempty
    simp [articleWrite, hsafe 2 t2 hne2, ← hdup]
  have hsave : save_articles gen folder prompt
      = [(pathJoin folder (sanitize_filename (pyStrip t1) ++ (".txt").data),
          articleBody t1 c1),
         (pathJoin folder (sanitize_filename (pyStrip t1) ++ (".txt").data),
          articleBody t2 c2)] := by
    simp only [save_articles]
    rw [hresp, hparse]
    simp [numberFrom, hw1, hw2]
  refine ⟨hsave, ?_, ?_, ?_, hsafe⟩
  · rw [hsave]
    simp [applyWrites, writeFs]
  · rw [hsave]
    simp
  · rw [hsave]
    rfl

/-- C10 witness: two blocks titled "Same Title" and "Same_Title" sanitize to
the same nonempty name; the run writes twice to one path and the final
filesystem holds the second body only. -/
theorem C10_duplicate_titles_witness :
    applyWrites (save_articles
      (fun _ => ("ARTICLE START\nSame Title\nfirst\nARTICLE END\n\nARTICLE START\nSame_Title\nsecond\nARTICLE END").data)
      (("out").data) (("article please").data))
      = [(pathJoin (("out").data) ((sanitize_filename (pyStrip (("Same Title").data)))
            ++ (".txt").data),
          articleBody (("Same_Title").data) (("second").data))] :=
  (C10_duplicate_titles
    (fun _ => ("ARTICLE START\nSame Title\nfirst\nARTICLE END\n\nARTICLE START\nSame_Title\nsecond\nARTICLE END").data)
    (("out").data) (("article please").data)
    [] (("Same Title").data) (("first").data) (("\n\n").data)
    (("Same_Title").data) (("second").data) []
    (by decide) (by decide) (by decide) (by decide) (by decide)
    (by decide) (by decide) (by decide) (by decide) (by decide)).2.1

/-! ## C5: the notes handler -/

/-- C5 counterexample: the notes handler strips the response before writing,
so for the generated text "hi\n" the file content is "hi", not the generated
text verbatim. -/
theorem C5_notes_counterexample :
    save_notes (fun _ => ("hi\n").data) (("out").data) (("Write study notes on thermodynamics").data)
      = [(pathJoin (("out").data) (("notes.txt").data), ("hi").data)]
    ∧ ¬ (save_notes (fun _ => ("hi\n").data) (("out").data) (("Write study notes on thermodynamics").data)
      = [(pathJoin (("out").data) (("notes.txt").data), ("hi\n").data)]) := by
  constructor
  · decide
  · decide

/-- C5 amended: the notes handler performs exactly one write, to notes.txt,
and its content is the generated text stripped of leading and trailing
whitespace (hence the text verbatim whenever it has none). -/
theorem C5_notes_amended (gen : Str → Str) (folder prompt : Str) :
    save_notes gen folder prompt
      = [(pathJoin folder (("notes.txt").data), pyStrip (gen (notes_instruction prompt)))]
    ∧ (save_notes gen folder prompt).length = 1 :=
  ⟨rfl, rfl⟩

/-! ## C7: the slide handler fallback -/

/-- C7 counterexample: the fallback slide's body is the stripped response,
so for the response " hello \n" (which parses to zero slides) the body is
"hello", not the full raw response text. -/
theorem C7_slide_fallback_counterexample :
    findSlides ((" hello \n").data) = []
    ∧ ¬ ((save_ppt (fun _ => (" hello \n").data) (("out").data) (("a ppt deck").data)).2
      = [((("a ppt deck").data), [(" hello \n").data])]) := by
  constructor
  · decide
  · decide

/-- C7 amended: when zero SLIDE blocks parse, the handler produces exactly
one fallback slide whose title is the task text and whose body is the
response text stripped of leading and trailing whitespace. -/
theorem C7_slide_fallback_amended (gen : Str → Str) (folder prompt : Str)
    (h : findSlides (gen (ppt_instruction prompt)) = []) :
    (save_ppt gen folder prompt).2
      = [(prompt, [pyStrip (gen (ppt_instruction prompt))])]
    ∧ (save_ppt gen folder prompt).2.length = 1
    ∧ (save_ppt gen folder prompt).1 = pathJoin folder (("slides.pptx").data) := by
  refine ⟨?_, ?_, ?_⟩ <;> simp [save_ppt, h]

/-- C7 witness: a marker-free response yields the single fallback slide. -/
theorem C7_slide_fallback_amended_witness :
    (save_ppt (fun _ => ("no slide markers here").data) (("out").data) (("a ppt deck").data)).2
      = [((("a ppt deck").data),
          [pyStrip ((fun _ : Str => ("no slide markers here").data)
            (ppt_instruction (("a ppt deck").data)))])] :=
  (C7_slide_fallback_amended (fun _ => ("no slide markers here").data)
    (("out").data) (("a ppt deck").data) (by decide)).1

/-! ## C8: unsupported tasks -/

/-- Claim C8: a task matching none of the seven rules routes to the
unsupported report: the message flag is set, no artifact is produced (and
the total model shows no exception arises), and the interactive loop goes
on to process the remaining inputs. -/
theorem C8_unsupported_task (gen : Str → Str) (g : Nat → Nat)
    (task folder : Str) (rest : List (Str × Str))
    (h : matchesNoRule (lower task))
    (hexit : lower task ≠ ("exit").data) :
    route task = Route.unsupported
    ∧ handle_task gen g task folder = ([], true)
    ∧ ai_agent gen g ((task, folder) :: rest)
      = ([], true) :: ai_agent gen g rest := by
  obtain ⟨h1, h2, h3, h4, h5, h6, h7⟩ := h
  have hr : route task = Route.unsupported := by
    simp [route, h1, h2, h3, h4, h5, h6, h7]
  refine ⟨hr, ?_, ?_⟩
  · simp [handle_task, hr]
  · simp [ai_agent, hexit, handle_task, hr]

/-- C8 witness: the task "zzz" matches no rule; the loop records the
unsupported report and terminates normally on the remaining (empty) input. -/
theorem C8_unsupported_task_witness :
    route (("zzz").data) = Route.unsupported
    ∧ handle_task (fun _ => []) (fun _ => 0) (("zzz").data) (("out").data) = ([], true)
    ∧ ai_agent (fun _ => []) (fun _ => 0) [((("zzz").data), (("out").data))]
      = [([], true)] :=
  C8_unsupported_task (fun _ => []) (fun _ => 0) (("zzz").data) (("out").data) []
    (by decide) (by decide)
